import Mathlib

/-!
Verification of the Caithe wallpaper manager core
(`src/core/WallpaperManager.h` / `WallpaperManager.cpp` /
`DisplayManager.h` / `DisplayManager.cpp`).

The C++ code is shallowly embedded.  External effects (the filesystem,
`std::system` exit codes, `popen` captured output, the bytes of image
files) are passed in explicitly as an environment record, and the
`WallpaperManager` / `DisplayManager` member state is threaded as an
explicit state record.  C++ `int` values are modelled as `Int` (no claim
exercises overflow), `double` as `ℚ` (every quantity appearing in a claim
is exactly representable), `std::string` as `String`, and the
`std::unordered_map<int, WallpaperInfo>` as an association list with
unique keys where insert replaces in place and erase removes the key's
entry.
-/

set_option autoImplicit false

namespace Caithe

/-! ### Basic character/string helpers mirroring the C++ std behaviour -/

/-- ASCII lower-casing of one character, as `::tolower` does in the C locale
(`std::transform(..., ::tolower)` in `isValidImageFile` / `setWallpaper`). -/
def asciiToLower (c : Char) : Char :=
  if 'A' ≤ c ∧ c ≤ 'Z' then Char.ofNat (c.toNat + 32) else c

/-- Lower-case a whole string, character by character. -/
def lowerString (s : String) : String :=
  String.mk (s.data.map asciiToLower)

/-- Word character of the ECMAScript `\w` class used by `std::regex`:
letters, digits and underscore. -/
def isWordChar (c : Char) : Bool :=
  c.isAlpha || c.isDigit || c = '_'

/-- Digit-or-dot class `[\d.]` used in the refresh-rate capture. -/
def isDigitOrDot (c : Char) : Bool :=
  c.isDigit || c = '.'

/-- Value of a decimal digit string, as `std::stoi` computes it on an
all-digit capture (the regex guarantees the capture is non-empty digits). -/
def digitsToNat : List Char → Nat
  | [] => 0
  | c :: cs => (digitsToNat cs) + c.toNat.sub 48 * 10 ^ cs.length

/-- Integer part of a `[\d.]+` capture: `static_cast<int>(std::stod s)`
truncates toward zero, which for the non-negative captures produced by the
regex is the digit run before the first `'.'`.  (On a capture with no
leading digits `std::stod` would throw and crash the program; the model
returns 0 there, a point no claim exercises.) -/
def decimalIntPart (cs : List Char) : Nat :=
  digitsToNat (cs.takeWhile Char.isDigit)

/-- First index `i ≥ 0` of `sub` inside `s` (both as character lists),
mirroring `std::string::find(sub, 0)`; `none` plays the role of `npos`. -/
def findSubAux (sub : List Char) : List Char → Nat → Option Nat
  | [], i => if sub = [] then some i else none
  | c :: rest, i =>
      if sub.isPrefixOf (c :: rest) then some i else findSubAux sub rest (i + 1)

/-- `std::string::find(sub, start)` on character lists. -/
def strFindFrom (s sub : List Char) (start : Nat) : Option Nat :=
  (findSubAux sub (s.drop start) 0).map (· + start)

/-- `s.find(sub) != std::string::npos`, substring containment. -/
def strContains (s sub : String) : Bool :=
  (strFindFrom s.data sub.data 0).isSome

/-- Last index of `'.'` in a character list, if any. -/
def lastDotIndex (cs : List Char) : Option Nat :=
  (cs.findIdxs (· = '.')).getLast?

/-- Split a character list at every occurrence of `sep` (the pieces do not
contain `sep`; `n` separators yield `n + 1` pieces, so a trailing
separator yields a trailing empty piece). -/
def splitOnCharAux (sep : Char) : List Char → List Char → List (List Char)
  | [], acc => [acc.reverse]
  | c :: rest, acc =>
      if c = sep then acc.reverse :: splitOnCharAux sep rest []
      else splitOnCharAux sep rest (c :: acc)

/-- Split on one separator character. -/
def splitOnChar (sep : Char) (cs : List Char) : List (List Char) :=
  splitOnCharAux sep cs []

/-- Filename component of a path: the part after the last `'/'`
(`std::filesystem::path::filename` for the generic POSIX format the code
uses). -/
def pathFilename (path : String) : List Char :=
  match (splitOnChar '/' path.data).getLast? with
  | some last => last
  | none => []

/-- Extension of a path as `std::filesystem::path::extension().string()`
computes it: the substring of the filename from its last period to the end,
except that `"."`, `".."`, a filename without a period, and a filename
whose last period is its first character have no extension. -/
def pathExtension (path : String) : String :=
  let fname := pathFilename path
  if fname = ['.'] ∨ fname = ['.', '.'] then ""
  else
    match lastDotIndex fname with
    | none => ""
    | some 0 => ""
    | some i => String.mk (fname.drop i)

/-! ### WallpaperManager data model (`WallpaperManager.h`) -/

/-- `enum class WallpaperMode` from `WallpaperManager.h`. -/
inductive WallpaperMode where
  | Stretch
  | Center
  | Tile
  | Scale
deriving DecidableEq, Repr

/-- `struct WallpaperInfo` from `WallpaperManager.h`. -/
structure WallpaperInfo where
  path : String
  mode : WallpaperMode
  displayId : Int
  width : Int
  height : Int
  format : String
deriving DecidableEq, Repr

/-- `WallpaperManager::ErrorCode` from `WallpaperManager.h`. -/
inductive WMErrorCode where
  | None
  | InvalidPath
  | FileNotFound
  | UnsupportedFormat
  | HyprlandCommandFailed
  | DisplayNotFound
  | InvalidDisplayId
  | SystemError
deriving DecidableEq, Repr

/-- External world seen by `WallpaperManager`: `std::filesystem::exists`,
the exit codes `std::system` returns per command line, the text captured
from `popen("hyprctl monitors -j")` in `getHyprlandDisplayName`, and the
image-header sniffing block of `setWallpaper` (lines 170–229), which reads
the file's bytes and either assigns a (width, height) pair from a PNG IHDR
chunk or JPEG SOF segment (`some`) or leaves the 1920×1080 defaults in
place (`none`). -/
structure WMEnv where
  fsExists : String → Bool
  systemExit : String → Int
  hyprMonitorsJson : String
  sniff : String → Option (Int × Int)

/-- Member state of a `WallpaperManager` instance: `m_wallpapers` (the
`unordered_map<int, WallpaperInfo>` as an association list with unique
keys), `m_lastError`, `m_lastErrorCode`, and the `m_cacheValid` flag.
The `mutable` cache vector itself only backs `getAllWallpapers`, which no
claim exercises, and is not modelled. -/
structure WMState where
  wallpapers : List (Int × WallpaperInfo)
  lastError : String
  lastErrorCode : WMErrorCode
  cacheValid : Bool
deriving DecidableEq, Repr

/-- Freshly constructed manager (`WallpaperManager::WallpaperManager`). -/
def initWMState : WMState :=
  { wallpapers := [], lastError := "", lastErrorCode := .None, cacheValid := false }

/-- `m_wallpapers.find(k)` — lookup in the association list. -/
def lookupAssoc (k : Int) : List (Int × WallpaperInfo) → Option WallpaperInfo
  | [] => none
  | p :: rest => if p.1 = k then some p.2 else lookupAssoc k rest

/-- `m_wallpapers[k] = v` — replace the entry for `k` in place, or append a
new entry when the key is absent (`operator[]` followed by assignment). -/
def insertAssoc (k : Int) (v : WallpaperInfo) :
    List (Int × WallpaperInfo) → List (Int × WallpaperInfo)
  | [] => [(k, v)]
  | p :: rest => if p.1 = k then (k, v) :: rest else p :: insertAssoc k v rest

/-- `m_wallpapers.erase(it)` for `it = find(k)`: since the map keeps at most
one entry per key, erasing the iterator equals dropping every pair keyed
`k`. -/
def eraseAssoc (k : Int) (l : List (Int × WallpaperInfo)) :
    List (Int × WallpaperInfo) :=
  l.filter (fun p => p.1 ≠ k)

/-- `it->second.mode = mode` — in-place mutation of the entry `find`
returned (the first, and with unique keys the only, entry keyed `k`),
leaving every other field and entry untouched. -/
def setModeAssoc (k : Int) (mode : WallpaperMode) :
    List (Int × WallpaperInfo) → List (Int × WallpaperInfo)
  | [] => []
  | p :: rest =>
      if p.1 = k then (p.1, { p.2 with mode := mode }) :: rest
      else p :: setModeAssoc k mode rest

/-- `WallpaperManager::clearError` (also resets the cache flag, per the
implementation). -/
def clearError (st : WMState) : WMState :=
  { st with lastError := "", lastErrorCode := .None, cacheValid := false }

/-- `WallpaperManager::SUPPORTED_FORMATS`. -/
def SUPPORTED_FORMATS : List String :=
  [".png", ".jpg", ".jpeg", ".bmp", ".tiff", ".webp", ".gif"]

/-- `WallpaperManager::isValidImageFile`: empty check, then
`std::filesystem::exists`, then case-insensitive extension membership in
`SUPPORTED_FORMATS` — note the existence check precedes the extension
check. -/
def isValidImageFile (env : WMEnv) (path : String) : Bool :=
  if path = "" then false
  else if ¬ env.fsExists path then false
  else SUPPORTED_FORMATS.contains (lowerString (pathExtension path))

/-- Placement record built by `setWallpaper` after validation (lines
164–234): mode defaults to `Scale`, dimensions come from the header sniff
with 1920×1080 fallback, format is the lowercased extension. -/
def buildWallpaperInfo (env : WMEnv) (path : String) (displayId : Int) :
    WallpaperInfo :=
  let dims := (env.sniff path).getD (1920, 1080)
  { path := path
    mode := .Scale
    displayId := displayId
    width := dims.1
    height := dims.2
    format := lowerString (pathExtension path) }

/-- Iteration body of `getHyprlandDisplayName`: scan `result` for
successive `"name":` markers; at the `displayId`-th one, extract the text
between the next two double quotes and return it; otherwise keep
scanning.  (`result.find("\"", pos + 7) + 1` wraps `npos` to 0 in the C++;
the model reproduces that.)  `fuel` bounds the loop; each iteration moves
`pos` forward by at least 7, so `s.length + 1` steps always suffice. -/
def ghdnLoop (s : List Char) (displayId : Int) :
    Nat → Nat → Int → Option String
  | 0, _, _ => none
  | fuel + 1, pos, currentId =>
      match strFindFrom s ("\"name\":".data) pos with
      | none => none
      | some p =>
          if currentId = displayId then
            let nameStart : Nat :=
              match strFindFrom s ['"'] (p + 7) with
              | some q => q + 1
              | none => 0
            match strFindFrom s ['"'] nameStart with
            | some nameEnd =>
                some (String.mk ((s.drop nameStart).take (nameEnd - nameStart)))
            | none => ghdnLoop s displayId fuel (p + 7) (currentId + 1)
          else ghdnLoop s displayId fuel (p + 7) (currentId + 1)

/-- `WallpaperManager::getHyprlandDisplayName`: parse the captured
`hyprctl monitors -j` text for the `displayId`-th `"name":` field, falling
back to the static id→name table. -/
def getHyprlandDisplayName (env : WMEnv) (displayId : Int) : String :=
  let s := env.hyprMonitorsJson.data
  match ghdnLoop s displayId (s.length + 1) 0 0 with
  | some name => name
  | none =>
      if displayId = 0 then "DP-1"
      else if displayId = 1 then "DP-2"
      else if displayId = 2 then "HDMI-A-1"
      else "DP-1"

/-- `WallpaperManager::createHyprlandCommand` (the `mode` argument is
accepted but unused by the implementation). -/
def createHyprlandCommand (env : WMEnv) (path : String) (displayId : Int)
    (_mode : WallpaperMode) : String :=
  let displayName := getHyprlandDisplayName env displayId
  if displayName ≠ "" then
    "hyprctl hyprpaper wallpaper " ++ "\"" ++ displayName ++ "," ++ path ++ "\""
  else
    "hyprctl hyprpaper wallpaper " ++ "\"" ++ path ++ "\""

/-- `WallpaperManager::applyToHyprland`: preload, then set; either step's
non-zero exit fails the call.  Sets only the error string, never the error
code, and does not call `clearError`. -/
def applyToHyprland (env : WMEnv) (st : WMState) (displayId : Int) :
    WMState × Bool :=
  match lookupAssoc displayId st.wallpapers with
  | none =>
      ({ st with lastError := "No wallpaper set for display " ++ toString displayId },
       false)
  | some info =>
      let preloadCommand := "hyprctl hyprpaper preload " ++ info.path
      if env.systemExit preloadCommand ≠ 0 then
        ({ st with lastError := "Failed to preload wallpaper image" }, false)
      else
        let command := createHyprlandCommand env info.path displayId info.mode
        if env.systemExit command ≠ 0 then
          ({ st with lastError := "Failed to apply wallpaper to Hyprland" }, false)
        else (st, true)

/-- `WallpaperManager::setWallpaper`: clear the sticky error, validate
(empty / `isValidImageFile` / exists), build and store the placement
record, then `applyToHyprland`. -/
def setWallpaper (env : WMEnv) (st : WMState) (path : String)
    (displayId : Int) : WMState × Bool :=
  let st := clearError st
  if path = "" then
    ({ st with lastError := "Wallpaper path cannot be empty",
               lastErrorCode := .InvalidPath }, false)
  else if ¬ isValidImageFile env path then
    ({ st with lastError := "Invalid image file: " ++ path,
               lastErrorCode := .UnsupportedFormat }, false)
  else if ¬ env.fsExists path then
    ({ st with lastError := "File not found: " ++ path,
               lastErrorCode := .FileNotFound }, false)
  else
    let info := buildWallpaperInfo env path displayId
    let st := { st with wallpapers := insertAssoc displayId info st.wallpapers,
                        cacheValid := false }
    applyToHyprland env st displayId

/-- `WallpaperManager::setWallpaperAllDisplays`: validates, then — per the
implementation's own "For now, apply to display 0 as fallback" — delegates
to `setWallpaper(path, 0)` only.  Its two failure paths set only the error
string. -/
def setWallpaperAllDisplays (env : WMEnv) (st : WMState) (path : String) :
    WMState × Bool :=
  let st := clearError st
  if path = "" then
    ({ st with lastError := "Wallpaper path cannot be empty" }, false)
  else if ¬ isValidImageFile env path then
    ({ st with lastError := "Invalid image file: " ++ path }, false)
  else
    setWallpaper env st path 0

/-- `WallpaperManager::removeWallpaper`: erase the record, then run the
unload command; a non-zero exit reports failure but the record stays
erased. -/
def removeWallpaper (env : WMEnv) (st : WMState) (displayId : Int) :
    WMState × Bool :=
  let st := clearError st
  match lookupAssoc displayId st.wallpapers with
  | none =>
      ({ st with lastError := "No wallpaper set for display " ++ toString displayId },
       false)
  | some _ =>
      let st := { st with wallpapers := eraseAssoc displayId st.wallpapers,
                          cacheValid := false }
      if env.systemExit "hyprctl hyprpaper unload all" ≠ 0 then
        ({ st with lastError := "Failed to remove wallpaper from Hyprland" }, false)
      else (st, true)

/-- `WallpaperManager::removeAllWallpapers`: clear the map, then run the
unload command; a non-zero exit reports failure but the map stays empty. -/
def removeAllWallpapers (env : WMEnv) (st : WMState) : WMState × Bool :=
  let st := clearError st
  let st := { st with wallpapers := [], cacheValid := false }
  if env.systemExit "hyprctl hyprpaper unload all" ≠ 0 then
    ({ st with lastError := "Failed to remove all wallpapers from Hyprland" }, false)
  else (st, true)

/-- `WallpaperManager::setWallpaperMode`: fail (string only, no error
code) when no placement exists; otherwise mutate the mode in place and
re-apply. -/
def setWallpaperMode (env : WMEnv) (st : WMState) (displayId : Int)
    (mode : WallpaperMode) : WMState × Bool :=
  let st := clearError st
  match lookupAssoc displayId st.wallpapers with
  | none =>
      ({ st with lastError := "No wallpaper set for display " ++ toString displayId },
       false)
  | some _ =>
      let st := { st with wallpapers := setModeAssoc displayId mode st.wallpapers,
                          cacheValid := false }
      applyToHyprland env st displayId

/-- `WallpaperManager::getWallpaperMode`: a `const` query — a pure
function of the state, returning the default `Scale` when the display has
no placement. -/
def getWallpaperMode (st : WMState) (displayId : Int) : WallpaperMode :=
  match lookupAssoc displayId st.wallpapers with
  | none => .Scale
  | some info => info.mode

/-- `WallpaperManager::calculateAspectRatioScale`:
`min(displayWidth / imageWidth, displayHeight / imageHeight)` with
real-valued division.  The C++ computes in `double`; the model uses exact
rationals — at every input a claim evaluates, the C++ doubles are exact. -/
def calculateAspectRatioScale (displayWidth displayHeight imageWidth imageHeight : Int) : ℚ :=
  min ((displayWidth : ℚ) / (imageWidth : ℚ)) ((displayHeight : ℚ) / (imageHeight : ℚ))

/-! ### DisplayManager data model (`DisplayManager.h` / `DisplayManager.cpp`)

The two monitor-line patterns are given to `std::regex_search` (ECMAScript
grammar).  In both patterns every quantified character class is disjoint
from the character that must follow it (`\w` never matches `-`, `(` or a
space; `\d` never matches `x`, `/`, `+`, `:` or `)`; `[\d.]` never matches
`H`; `\s` never matches a digit, `+`, `*` or `\w`), so greedy
maximal-munch with no backtracking computes exactly the ECMAScript match,
and `regex_search`'s behaviour is: try an anchored match at each start
position left to right, succeed on the first position that matches. -/

/-- Whitespace class `\s` of `std::regex` ECMAScript syntax (ASCII part;
the inputs in scope are ASCII). -/
def isSpaceChar (c : Char) : Bool :=
  c = ' ' || c = '\t' || c = '\n' || c = '\r' || c.toNat = 11 || c.toNat = 12

/-- Consume a non-empty maximal run of characters satisfying `p` (a greedy
`+`-quantified class), returning the run and the rest. -/
def takeRun1 (p : Char → Bool) (cs : List Char) :
    Option (List Char × List Char) :=
  let r := cs.takeWhile p
  if r = [] then none else some (r, cs.dropWhile p)

/-- Consume an exact literal piece of the pattern. -/
def expectLit (lit : List Char) (cs : List Char) : Option (List Char) :=
  if lit.isPrefixOf cs then some (cs.drop lit.length) else none

/-- Consume a `+`-quantified class capture followed by a literal piece:
the shape every capture of the two patterns has. -/
def takeTok (p : Char → Bool) (lit : List Char) (cs : List Char) :
    Option (List Char × List Char) :=
  (takeRun1 p cs).bind fun r => (expectLit lit r.2).map fun rest => (r.1, rest)

/-- Captures of one `hyprctl monitors` line match, with numeric captures
already through `std::stoi` / `static_cast<int>(std::stod ...)`. -/
structure MonitorMatch where
  name : String
  id : Nat
  width : Nat
  height : Nat
  rr : Nat
  x : Nat
  y : Nat
deriving DecidableEq, Repr

/-- Anchored match of
`Monitor (\w+-\w+) \(ID (\d+)\): (\d+)x(\d+) @ ([\d.]+)Hz at (\d+)x(\d+)`
at the head of `cs`. -/
def matchMonitorAt (cs : List Char) : Option MonitorMatch :=
  (expectLit "Monitor ".data cs).bind fun cs =>
  (takeTok isWordChar ['-'] cs).bind fun w1 =>
  (takeTok isWordChar " (ID ".data w1.2).bind fun w2 =>
  (takeTok Char.isDigit "): ".data w2.2).bind fun idc =>
  (takeTok Char.isDigit ['x'] idc.2).bind fun wc =>
  (takeTok Char.isDigit " @ ".data wc.2).bind fun hc =>
  (takeTok isDigitOrDot "Hz at ".data hc.2).bind fun rrc =>
  (takeTok Char.isDigit ['x'] rrc.2).bind fun xc =>
  (takeRun1 Char.isDigit xc.2).bind fun yc =>
  some { name := String.mk (w1.1 ++ '-' :: w2.1)
         id := digitsToNat idc.1
         width := digitsToNat wc.1
         height := digitsToNat hc.1
         rr := decimalIntPart rrc.1
         x := digitsToNat xc.1
         y := digitsToNat yc.1 }

/-- `std::regex_search` of the monitor pattern over one line: first start
position whose anchored match succeeds. -/
def searchMonitorLine : List Char → Option MonitorMatch
  | [] => none
  | c :: rest =>
      match matchMonitorAt (c :: rest) with
      | some m => some m
      | none => searchMonitorLine rest

/-- `struct Display` from `DisplayManager.h`. -/
structure Display where
  id : Int
  name : String
  description : String
  width : Int
  height : Int
  refreshRate : Int
  isPrimary : Bool
  isActive : Bool
  connector : String
  scale : ℚ
deriving DecidableEq, Repr

/-- Value-initialized `Display{}` (all fields zeroed). -/
def defaultDisplay : Display :=
  { id := 0, name := "", description := "", width := 0, height := 0,
    refreshRate := 0, isPrimary := false, isActive := false,
    connector := "", scale := 0 }

/-- `DisplayManager::createDisplayFromInfo`. -/
def createDisplayFromInfo (name : String) (width height refreshRate : Int)
    (isPrimary : Bool) : Display :=
  { id := 0
    name := name
    width := width
    height := height
    refreshRate := refreshRate
    isPrimary := isPrimary
    isActive := true
    connector := ""
    scale := 1
    description := name ++ " (" ++ toString width ++ "x" ++ toString height
      ++ "@" ++ toString refreshRate ++ "Hz)" }

/-- Connector classification from the name, shared by both parsers. -/
def connectorFor (name : String) : String :=
  if strContains name "DP-" then "DisplayPort"
  else if strContains name "HDMI-" then "HDMI"
  else if strContains name "DVI-" then "DVI"
  else "Unknown"

/-- One matched `hyprctl monitors` line turned into a `Display`
(`parseHyprlandOutput` loop body): primary iff the reported position is
the origin, id taken from the match, connector from the name. -/
def monitorToDisplay (m : MonitorMatch) : Display :=
  let d := createDisplayFromInfo m.name (m.width : Int) (m.height : Int)
    (m.rr : Int) (m.x == 0 && m.y == 0)
  { d with id := (m.id : Int), isActive := true, connector := connectorFor m.name }

/-- Line matches of `DisplayManager::parseHyprlandOutput`, in input
order (`std::getline` splits on newlines; unmatched lines contribute
nothing). -/
def parseHyprlandMatches (output : String) : List MonitorMatch :=
  (splitOnChar '\n' output.data).filterMap searchMonitorLine

/-- The display list `DisplayManager::parseHyprlandOutput` builds into
`m_displays` (the function's boolean result is the list's non-emptiness). -/
def parseHyprlandOutput (output : String) : List Display :=
  (parseHyprlandMatches output).map monitorToDisplay

/-- Captures of one `xrandr --listmonitors` line match. -/
structure XrandrMatch where
  name : String
  width : Nat
  height : Nat
  x : Nat
  y : Nat
deriving DecidableEq, Repr

/-- Head `\s*\d+:\s+\+?\*?(\w+-\w+)\s+` of the xrandr pattern: ordinal,
optional `+`/`*` flags, the name capture and trailing whitespace. -/
def matchXrandrHead (cs : List Char) : Option (List Char × List Char) :=
  let cs := cs.dropWhile isSpaceChar
  (takeTok Char.isDigit [':'] cs).bind fun ord =>
  (takeRun1 isSpaceChar ord.2).bind fun sp =>
  let cs := if sp.2.head? = some '+' then sp.2.drop 1 else sp.2
  let cs := if cs.head? = some '*' then cs.drop 1 else cs
  (takeTok isWordChar ['-'] cs).bind fun w1 =>
  (takeRun1 isWordChar w1.2).bind fun w2 =>
  (takeRun1 isSpaceChar w2.2).bind fun sp2 =>
  some (w1.1 ++ '-' :: w2.1, sp2.2)

/-- Geometry block `(\d+)/(\d+)x(\d+)/(\d+)\+(\d+)\+(\d+)` of the xrandr
pattern: returns (width, height, x, y) captures and the rest. -/
def matchXrandrGeom (cs : List Char) :
    Option (List Char × List Char × List Char × List Char × List Char) :=
  (takeTok Char.isDigit ['/'] cs).bind fun wc =>
  (takeTok Char.isDigit ['x'] wc.2).bind fun c3 =>
  (takeTok Char.isDigit ['/'] c3.2).bind fun hc =>
  (takeTok Char.isDigit ['+'] hc.2).bind fun c5 =>
  (takeTok Char.isDigit ['+'] c5.2).bind fun xc =>
  (takeRun1 Char.isDigit xc.2).bind fun yc =>
  some (wc.1, hc.1, xc.1, yc.1, yc.2)

/-- Trailing `\s+(\w+-\w+)` of the xrandr pattern (the capture is matched
but unused by the code). -/
def matchXrandrTail (cs : List Char) : Option (List Char) :=
  (takeRun1 isSpaceChar cs).bind fun sp =>
  (takeTok isWordChar ['-'] sp.2).bind fun n1 =>
  (takeRun1 isWordChar n1.2).bind fun n2 =>
  some n2.2

/-- Anchored match of
`\s*\d+:\s+\+?\*?(\w+-\w+)\s+(\d+)/(\d+)x(\d+)/(\d+)\+(\d+)\+(\d+)\s+(\w+-\w+)`
at the head of `cs` (captures 3, 5 and 8 are matched but unused by the
code). -/
def matchXrandrAt (cs : List Char) : Option XrandrMatch :=
  (matchXrandrHead cs).bind fun h =>
  (matchXrandrGeom h.2).bind fun g =>
  (matchXrandrTail g.2.2.2.2).bind fun _ =>
  some { name := String.mk h.1
         width := digitsToNat g.1
         height := digitsToNat g.2.1
         x := digitsToNat g.2.2.1
         y := digitsToNat g.2.2.2.1 }

/-- `std::regex_search` of the xrandr pattern over one line. -/
def searchXrandrLine : List Char → Option XrandrMatch
  | [] => none
  | c :: rest =>
      match matchXrandrAt (c :: rest) with
      | some m => some m
      | none => searchXrandrLine rest

/-- One matched xrandr line turned into a `Display`
(`parseXrandrOutput` loop body): ids are assigned sequentially in match
order, refresh rate fixed at 60. -/
def xrandrToDisplay (idx : Nat) (m : XrandrMatch) : Display :=
  let d := createDisplayFromInfo m.name (m.width : Int) (m.height : Int) 60
    (m.x == 0 && m.y == 0)
  { d with id := (idx : Int), isActive := true, connector := connectorFor m.name }

/-- The display list `DisplayManager::parseXrandrOutput` builds. -/
def parseXrandrOutput (output : String) : List Display :=
  (((splitOnChar '\n' output.data).filterMap searchXrandrLine).enum).map
    (fun p => xrandrToDisplay p.1 p.2)

/-- `DisplayManager::ErrorCode` from `DisplayManager.h`. -/
inductive DMErrorCode where
  | None
  | HyprlandNotRunning
  | XrandrNotAvailable
  | NoDisplaysFound
  | InvalidDisplayId
  | CommandExecutionFailed
  | ParseError
  | SystemError
deriving DecidableEq, Repr

/-- External world seen by `DisplayManager`: the text `executeCommand`
captures for its two fixed command lines (`hyprctl monitors` and
`xrandr --listmonitors`); `executeCommand` never throws — a failed spawn
yields the empty string. -/
structure DMEnv where
  hyprlandMonitorsOut : String
  xrandrOut : String

/-- Member state of a `DisplayManager` instance. -/
structure DMState where
  displays : List Display
  lastError : String
  lastErrorCode : DMErrorCode
deriving DecidableEq, Repr

/-- `DisplayManager::clearError`. -/
def clearErrorDM (st : DMState) : DMState :=
  { st with lastError := "", lastErrorCode := .None }

/-- `DisplayManager::queryHyprlandDisplays`: empty captured output fails
with `HyprlandNotRunning`; otherwise `parseHyprlandOutput` rebuilds
`m_displays` (even when it matches nothing) and an empty result fails with
`ParseError`. -/
def queryHyprlandDisplays (env : DMEnv) (st : DMState) : DMState × Bool :=
  if env.hyprlandMonitorsOut = "" then
    ({ st with
        lastError := "Failed to query Hyprland displays - Hyprland may not be running",
        lastErrorCode := .HyprlandNotRunning }, false)
  else
    let ds := parseHyprlandOutput env.hyprlandMonitorsOut
    let st := { st with displays := ds }
    if ds.isEmpty then
      ({ st with lastError := "Failed to parse Hyprland display output",
                 lastErrorCode := .ParseError }, false)
    else (st, true)

/-- `DisplayManager::getPrimaryDisplay`: first primary-flagged display,
else the first display, else a zero-value record. -/
def getPrimaryDisplay (st : DMState) : Display :=
  match st.displays.find? (·.isPrimary) with
  | some d => d
  | none =>
      match st.displays with
      | [] => defaultDisplay
      | d :: _ => d

/-- `DisplayManager::refreshDisplays`: try Hyprland, fall back to xrandr,
and if the xrandr output is empty too, synthesize the single default
display and record the "no detection method available" condition; finally
fail only if the list is still empty. -/
def refreshDisplays (env : DMEnv) (st : DMState) : DMState × Bool :=
  let st := clearErrorDM st
  let hypr := queryHyprlandDisplays env st
  let afterFallback : DMState × Bool :=
    if hypr.2 then (hypr.1, true)
    else
      let st := hypr.1
      if env.xrandrOut ≠ "" then
        let ds := parseXrandrOutput env.xrandrOut
        let st := { st with displays := ds }
        if ds.isEmpty then
          ({ st with lastError := "Failed to parse xrandr output",
                     lastErrorCode := .ParseError }, false)
        else (st, true)
      else
        ({ st with displays := [createDisplayFromInfo "DP-1" 1920 1080 60 true],
                   lastError := "No display detection method available, using default",
                   lastErrorCode := .NoDisplaysFound }, true)
  if afterFallback.2 then
    let st := afterFallback.1
    if st.displays.isEmpty then
      ({ st with lastError := "No displays found",
                 lastErrorCode := .NoDisplaysFound }, false)
    else (st, true)
  else (afterFallback.1, false)

/-! ### Concrete environments and inputs used by witnesses and
counterexamples -/

/-- Environment in which no file exists and every external command
succeeds. -/
def envAbsent : WMEnv :=
  { fsExists := fun _ => false
    systemExit := fun _ => 0
    hyprMonitorsJson := ""
    sniff := fun _ => none }

/-- Environment in which exactly `path` exists on disk, every external
command exits with `exitCode`, and the image header is not recognized
(dimension defaults apply). -/
def envWithFile (path : String) (exitCode : Int) : WMEnv :=
  { fsExists := fun p => p == path
    systemExit := fun _ => exitCode
    hyprMonitorsJson := ""
    sniff := fun _ => none }

/-- The spec's native-format two-line sample: one monitor at the origin,
one at (1920, 0). -/
def specSample : String :=
  "Monitor DP-1 (ID 0): 1920x1080 @ 60.001Hz at 0x0\nMonitor DP-2 (ID 1): 1920x1080 @ 60.001Hz at 1920x0"

/-- A native-format two-line sample with both monitors reported at the
origin (e.g. mirrored outputs). -/
def twoOriginSample : String :=
  "Monitor DP-1 (ID 0): 1920x1080 @ 60.001Hz at 0x0\nMonitor DP-2 (ID 1): 1920x1080 @ 60.001Hz at 0x0"

/-! ### Helper lemmas about the map operations and the orchestrator -/

theorem lookupAssoc_insertAssoc_self (k : Int) (v : WallpaperInfo)
    (l : List (Int × WallpaperInfo)) :
    lookupAssoc k (insertAssoc k v l) = some v := by
  induction l with
  | nil => simp [insertAssoc, lookupAssoc]
  | cons p rest ih =>
      by_cases h : p.1 = k <;> simp [insertAssoc, lookupAssoc, h, ih]

theorem lookupAssoc_insertAssoc_ne (j k : Int) (v : WallpaperInfo)
    (l : List (Int × WallpaperInfo)) (h : j ≠ k) :
    lookupAssoc j (insertAssoc k v l) = lookupAssoc j l := by
  have hk : ¬ (k = j) := fun e => h e.symm
  induction l with
  | nil => simp [insertAssoc, lookupAssoc, hk]
  | cons p rest ih =>
      by_cases hp : p.1 = k
      · simp [insertAssoc, lookupAssoc, hp, hk]
      · simp [insertAssoc, lookupAssoc, hp, ih]

theorem lookupAssoc_eraseAssoc_self (k : Int) (l : List (Int × WallpaperInfo)) :
    lookupAssoc k (eraseAssoc k l) = none := by
  induction l with
  | nil => simp [eraseAssoc, lookupAssoc]
  | cons p rest ih =>
      by_cases h : p.1 = k <;>
        simp_all [eraseAssoc, lookupAssoc, List.filter]

theorem lookupAssoc_eraseAssoc_ne (j k : Int) (l : List (Int × WallpaperInfo))
    (h : j ≠ k) :
    lookupAssoc j (eraseAssoc k l) = lookupAssoc j l := by
  induction l with
  | nil => simp [eraseAssoc, lookupAssoc]
  | cons p rest ih =>
      by_cases hp : p.1 = k
      · have : p.1 ≠ j := fun hj => h (hj ▸ hp ▸ rfl)
        simp_all [eraseAssoc, lookupAssoc, List.filter, hp, this]
      · by_cases hj : p.1 = j <;>
          simp_all [eraseAssoc, lookupAssoc, List.filter, hp, hj]

theorem lookupAssoc_setModeAssoc_self (k : Int) (m : WallpaperMode)
    (l : List (Int × WallpaperInfo)) :
    lookupAssoc k (setModeAssoc k m l)
      = (lookupAssoc k l).map (fun i => { i with mode := m }) := by
  induction l with
  | nil => simp [setModeAssoc, lookupAssoc]
  | cons p rest ih =>
      by_cases h : p.1 = k <;> simp [setModeAssoc, lookupAssoc, h, ih]

theorem lookupAssoc_setModeAssoc_ne (j k : Int) (m : WallpaperMode)
    (l : List (Int × WallpaperInfo)) (h : j ≠ k) :
    lookupAssoc j (setModeAssoc k m l) = lookupAssoc j l := by
  induction l with
  | nil => simp [setModeAssoc, lookupAssoc]
  | cons p rest ih =>
      by_cases hp : p.1 = k
      · have hk : ¬ (k = j) := fun e => h e.symm
        simp [setModeAssoc, lookupAssoc, hp, hk]
      · simp [setModeAssoc, lookupAssoc, hp, ih]

/-- `applyToHyprland` never touches the placement map. -/
theorem applyToHyprland_wallpapers (env : WMEnv) (st : WMState) (id : Int) :
    (applyToHyprland env st id).1.wallpapers = st.wallpapers := by
  unfold applyToHyprland
  cases lookupAssoc id st.wallpapers <;> simp
  split_ifs <;> rfl

/-- `applyToHyprland` never touches the sticky error code (it sets only
the error string). -/
theorem applyToHyprland_lastErrorCode (env : WMEnv) (st : WMState) (id : Int) :
    (applyToHyprland env st id).1.lastErrorCode = st.lastErrorCode := by
  unfold applyToHyprland
  cases lookupAssoc id st.wallpapers <;> simp
  split_ifs <;> rfl

/-- The existence check inside `isValidImageFile` precedes the extension
check, so validity implies existence — this is what makes the
`FileNotFound` stage of `setWallpaper` unreachable. -/
theorem isValidImageFile_exists (env : WMEnv) (path : String)
    (h : isValidImageFile env path = true) : env.fsExists path = true := by
  unfold isValidImageFile at h
  by_cases h1 : path = ""
  · simp [h1] at h
  · by_cases hex : env.fsExists path = true
    · exact hex
    · rw [Bool.not_eq_true] at hex
      simp [h1, hex] at h

/-- A `setWallpaper` call that passes the validation gate stores the built
placement record for its display id before the compositor apply runs. -/
theorem setWallpaper_valid_wallpapers (env : WMEnv) (st : WMState)
    (path : String) (id : Int) (h1 : path ≠ "")
    (h2 : isValidImageFile env path = true) :
    (setWallpaper env st path id).1.wallpapers
      = insertAssoc id (buildWallpaperInfo env path id) st.wallpapers := by
  have hex := isValidImageFile_exists env path h2
  unfold setWallpaper
  simp [h1, h2, hex, clearError, applyToHyprland_wallpapers]

/-- A `setWallpaper` call that fails the validation gate leaves the
placement map unchanged. -/
theorem setWallpaper_invalid_wallpapers (env : WMEnv) (st : WMState)
    (path : String) (id : Int)
    (h : path = "" ∨ isValidImageFile env path = false) :
    (setWallpaper env st path id).1.wallpapers = st.wallpapers := by
  unfold setWallpaper
  rcases h with h | h
  · simp [h, clearError]
  · by_cases h1 : path = "" <;> simp [h1, h, clearError]

/-! ### The claims -/

/-- Claim C1: the spec says `setWallpaper` validates non-empty, then
extension, then existence, each stage short-circuiting with its distinct
error (InvalidPath / UnsupportedFormat / FileNotFound), and that an
unsupported extension fails before any existence check.  The code orders
the checks differently: `isValidImageFile` tests `std::filesystem::exists`
*before* the extension, so the dedicated `FileNotFound` stage is
unreachable.  This theorem evaluates the embedded `setWallpaper` at the
repository's own test input (`/nonexistent.png`, a supported extension on
an absent file, which `Tests/test_mathematical_algorithms.cpp` and
`Tests/test_wallpaper_integration.cpp` assert must yield `FileNotFound`):
the call fails with `UnsupportedFormat` instead. -/
theorem C1_missing_file_misreported :
    (setWallpaper envAbsent initWMState "/nonexistent.png" 0).2 = false
    ∧ (setWallpaper envAbsent initWMState "/nonexistent.png" 0).1.lastErrorCode
        = WMErrorCode.UnsupportedFormat
    ∧ (setWallpaper envAbsent initWMState "/nonexistent.png" 0).1.lastErrorCode
        ≠ WMErrorCode.FileNotFound :=
  ⟨by decide, by decide, by decide⟩

/-- Claim C2: the spec says `setWallpaperAllDisplays` applies the path to
every known display id from the Display Inventory.  The code, per its own
comment "Apply to all known displays using DisplayManager integration ...
For now, apply to display 0 as fallback", only ever calls
`setWallpaper(path, 0)` and never consults the inventory: the placement of
every display id other than 0 is untouched no matter what the environment
or state contain. -/
theorem C2_only_display_zero (env : WMEnv) (st : WMState) (path : String)
    (j : Int) (hj : j ≠ 0) :
    lookupAssoc j (setWallpaperAllDisplays env st path).1.wallpapers
      = lookupAssoc j st.wallpapers := by
  unfold setWallpaperAllDisplays
  by_cases h1 : path = ""
  · simp [h1, clearError]
  · by_cases h2 : isValidImageFile env path = true
    · simp only [h1, h2, if_neg, ite_false, not_true_eq_false, if_false,
        Bool.not_eq_true]
      rw [show (setWallpaper env (clearError st) path 0).1.wallpapers
            = insertAssoc 0 (buildWallpaperInfo env path 0) st.wallpapers from
          setWallpaper_valid_wallpapers env (clearError st) path 0 h1 h2]
      exact lookupAssoc_insertAssoc_ne j 0 _ _ hj
    · rw [Bool.not_eq_true] at h2
      simp [h1, h2, clearError]

/-- Witness for C2 at a concrete input: with the file present and two
conceptual displays 0 and 1, display 1's placement is untouched by
`setWallpaperAllDisplays`. -/
theorem C2_only_display_zero_witness :
    (1 : Int) ≠ 0
    ∧ lookupAssoc 1 (setWallpaperAllDisplays (envWithFile "w.png" 0)
        initWMState "w.png").1.wallpapers
      = lookupAssoc 1 initWMState.wallpapers :=
  ⟨by decide,
   C2_only_display_zero (envWithFile "w.png" 0) initWMState "w.png" 1 (by decide)⟩

/-- Counterexample to claim C3 as stated: with the file `w.png` present
but every external command exiting non-zero, `setWallpaper` returns
failure (the preload step fails) yet the placement record for display 0 —
previously Unset — has been created and stored: a failing `setWallpaper`
call does not leave the placement map unchanged. -/
theorem C3_counterexample :
    lookupAssoc 0 initWMState.wallpapers = none
    ∧ (setWallpaper (envWithFile "w.png" 1) initWMState "w.png" 0).2 = false
    ∧ lookupAssoc 0 (setWallpaper (envWithFile "w.png" 1) initWMState
          "w.png" 0).1.wallpapers
      = some (buildWallpaperInfo (envWithFile "w.png" 1) "w.png" 0) :=
  ⟨rfl, by decide, by decide⟩

/-- Claim C3 amended: a display id in the Unset state acquires a placement
only through a `setWallpaper` call that passes the validation gate — a
call failing validation leaves the map unchanged — but a validated call
stores the record *before* the compositor apply, so it stores the record
whether or not the call as a whole succeeds (and leaves every other
display id's placement unchanged). -/
theorem C3_set_gated_by_validation (env : WMEnv) (st : WMState)
    (path : String) (id : Int) :
    ((path = "" ∨ isValidImageFile env path = false) →
        (setWallpaper env st path id).1.wallpapers = st.wallpapers)
    ∧ (path ≠ "" → isValidImageFile env path = true →
        lookupAssoc id (setWallpaper env st path id).1.wallpapers
          = some (buildWallpaperInfo env path id)
        ∧ ∀ j, j ≠ id →
            lookupAssoc j (setWallpaper env st path id).1.wallpapers
              = lookupAssoc j st.wallpapers) := by
  refine ⟨setWallpaper_invalid_wallpapers env st path id, fun h1 h2 => ?_⟩
  rw [setWallpaper_valid_wallpapers env st path id h1 h2]
  exact ⟨lookupAssoc_insertAssoc_self id _ st.wallpapers,
         fun j hj => lookupAssoc_insertAssoc_ne j id _ st.wallpapers hj⟩

/-- Witness for the amended C3 at a concrete input: a validated call whose
external apply fails still stores the record. -/
theorem C3_set_gated_by_validation_witness :
    "w.png" ≠ ""
    ∧ isValidImageFile (envWithFile "w.png" 1) "w.png" = true
    ∧ lookupAssoc 0 (setWallpaper (envWithFile "w.png" 1) initWMState
          "w.png" 0).1.wallpapers
      = some (buildWallpaperInfo (envWithFile "w.png" 1) "w.png" 0) :=
  ⟨by decide, by decide,
   ((C3_set_gated_by_validation (envWithFile "w.png" 1) initWMState
      "w.png" 0).2 (by decide) (by decide)).1⟩

/-- Claim C4: the spec says every failing public placement operation
leaves a non-empty last-error string *and* a non-None last-error code.
Outside `setWallpaper`'s validation stages the code sets only the string:
this theorem evaluates the embedded `setWallpaperMode` at the repository's
own test input (`setWallpaperMode(-1, Stretch)` on a fresh manager, which
`Tests/test_mathematical_algorithms.cpp` asserts must yield
`InvalidDisplayId`): the call fails with a non-empty error string while
the error code remains `None`. -/
theorem C4_failure_leaves_code_None :
    (setWallpaperMode envAbsent initWMState (-1) WallpaperMode.Stretch).2 = false
    ∧ (setWallpaperMode envAbsent initWMState (-1)
          WallpaperMode.Stretch).1.lastError ≠ ""
    ∧ (setWallpaperMode envAbsent initWMState (-1)
          WallpaperMode.Stretch).1.lastErrorCode = WMErrorCode.None :=
  ⟨by decide, by decide, by decide⟩

/-- Claim C5: `removeWallpaper` erases the in-memory placement record even
when the external unload command fails — the call reports failure on a
non-zero exit but the removal is not rolled back — and
`removeAllWallpapers` empties the map regardless of the external call's
outcome. -/
theorem C5_removal_not_rolled_back :
    (∀ (env : WMEnv) (st : WMState) (id : Int),
        lookupAssoc id st.wallpapers ≠ none →
        lookupAssoc id (removeWallpaper env st id).1.wallpapers = none
        ∧ (env.systemExit "hyprctl hyprpaper unload all" ≠ 0 →
            (removeWallpaper env st id).2 = false))
    ∧ (∀ (env : WMEnv) (st : WMState),
        (removeAllWallpapers env st).1.wallpapers = []
        ∧ (env.systemExit "hyprctl hyprpaper unload all" ≠ 0 →
            (removeAllWallpapers env st).2 = false)) := by
  constructor
  · intro env st id h
    cases hl : lookupAssoc id st.wallpapers with
    | none => exact absurd hl h
    | some info =>
        unfold removeWallpaper
        simp only [clearError] at *
        simp only [hl]
        split_ifs with hexit <;>
          exact ⟨lookupAssoc_eraseAssoc_self id st.wallpapers,
                 fun hx => by simp_all⟩
  · intro env st
    unfold removeAllWallpapers
    split_ifs with hexit <;> exact ⟨rfl, fun hx => by simp_all⟩

/-- Witness for C5 at a concrete input: set a wallpaper successfully, then
remove it in an environment whose unload command exits 1: the call reports
failure but the record is gone. -/
theorem C5_removal_not_rolled_back_witness :
    lookupAssoc 0 (setWallpaper (envWithFile "w.png" 0) initWMState
        "w.png" 0).1.wallpapers ≠ none
    ∧ (envWithFile "w.png" 1).systemExit "hyprctl hyprpaper unload all" ≠ 0
    ∧ lookupAssoc 0 (removeWallpaper (envWithFile "w.png" 1)
          (setWallpaper (envWithFile "w.png" 0) initWMState "w.png" 0).1
          0).1.wallpapers = none
    ∧ (removeWallpaper (envWithFile "w.png" 1)
          (setWallpaper (envWithFile "w.png" 0) initWMState "w.png" 0).1
          0).2 = false := by
  have h : lookupAssoc 0 (setWallpaper (envWithFile "w.png" 0) initWMState
      "w.png" 0).1.wallpapers ≠ none := by decide
  have r := C5_removal_not_rolled_back.1 (envWithFile "w.png" 1)
    (setWallpaper (envWithFile "w.png" 0) initWMState "w.png" 0).1 0 h
  exact ⟨h, by decide, r.1, r.2 (by decide)⟩

/-- The first line of `specSample` as the parser's match record. -/
def specSampleMatch0 : MonitorMatch :=
  { name := "DP-1", id := 0, width := 1920, height := 1080, rr := 60,
    x := 0, y := 0 }

/-- A `DisplayManager` state holding the parse of `specSample`. -/
def specSampleState : DMState :=
  { displays := parseHyprlandOutput specSample, lastError := "",
    lastErrorCode := .None }

/-- Counterexample to claim C6 as stated: parsing a native-format
two-line sample in which both monitors report position (0, 0) (as mirrored
outputs do) yields a snapshot with *two* displays flagged primary —
"at most one display is flagged primary per snapshot" fails. -/
theorem C6_counterexample :
    (parseHyprlandOutput twoOriginSample).countP (·.isPrimary) = 2
    ∧ ¬ (parseHyprlandOutput twoOriginSample).countP (·.isPrimary) ≤ 1 :=
  ⟨by decide, by decide⟩

/-- Claim C6 amended: a parsed display is flagged primary exactly when its
reported position is the origin (never otherwise — a non-origin display is
never promoted), but *every* origin-positioned display is flagged, so a
snapshot may contain more than one primary; `getPrimaryDisplay` returns
the first primary-flagged display if one exists, else the first display in
detection order, else the zero-value record; on the spec's two-line sample
(origin and (1920, 0)) exactly the origin display is primary and input
order is preserved. -/
theorem C6_primary_iff_origin :
    (∀ output : String, ∀ m ∈ parseHyprlandMatches output,
        (monitorToDisplay m).isPrimary = (m.x == 0 && m.y == 0))
    ∧ (∀ output : String,
        parseHyprlandOutput output
          = (parseHyprlandMatches output).map monitorToDisplay)
    ∧ (∀ st : DMState,
        (∀ d, st.displays.find? (·.isPrimary) = some d →
            getPrimaryDisplay st = d)
        ∧ (st.displays.find? (·.isPrimary) = none →
            getPrimaryDisplay st = st.displays.headD defaultDisplay))
    ∧ (parseHyprlandOutput specSample).map (fun d => (d.name, d.isPrimary))
        = [("DP-1", true), ("DP-2", false)] := by
  refine ⟨fun _ _ _ => rfl, fun _ => rfl, fun st => ⟨?_, ?_⟩, by decide⟩
  · intro d h
    unfold getPrimaryDisplay
    rw [h]
  · intro h
    unfold getPrimaryDisplay
    rw [h]
    cases st.displays <;> rfl

/-- Witness for the amended C6 at the spec's sample: the first match is at
the origin and primary, and `getPrimaryDisplay` returns exactly that
display. -/
theorem C6_primary_iff_origin_witness :
    specSampleMatch0 ∈ parseHyprlandMatches specSample
    ∧ (monitorToDisplay specSampleMatch0).isPrimary
        = (specSampleMatch0.x == 0 && specSampleMatch0.y == 0)
    ∧ specSampleState.displays.find? (·.isPrimary)
        = some (monitorToDisplay specSampleMatch0)
    ∧ getPrimaryDisplay specSampleState = monitorToDisplay specSampleMatch0 := by
  have h1 : specSampleMatch0 ∈ parseHyprlandMatches specSample := by decide
  have h3 : specSampleState.displays.find? (·.isPrimary)
      = some (monitorToDisplay specSampleMatch0) := by decide
  exact ⟨h1, C6_primary_iff_origin.1 specSample specSampleMatch0 h1, h3,
         (C6_primary_iff_origin.2.2.1 specSampleState).1 _ h3⟩

/-- Claim C7: whenever both detection commands yield empty output,
`refreshDisplays` succeeds with an inventory of exactly one synthetic
display — conventional name DP-1, 1920×1080 @ 60 Hz, flagged primary —
and records the "no detection method available" condition
(`NoDisplaysFound`). -/
theorem C7_zero_detection_fallback (env : DMEnv) (st : DMState)
    (h1 : env.hyprlandMonitorsOut = "") (h2 : env.xrandrOut = "") :
    (refreshDisplays env st).2 = true
    ∧ (refreshDisplays env st).1.displays
        = [createDisplayFromInfo "DP-1" 1920 1080 60 true]
    ∧ ((refreshDisplays env st).1.displays.headD defaultDisplay).name = "DP-1"
    ∧ ((refreshDisplays env st).1.displays.headD defaultDisplay).width = 1920
    ∧ ((refreshDisplays env st).1.displays.headD defaultDisplay).height = 1080
    ∧ ((refreshDisplays env st).1.displays.headD defaultDisplay).refreshRate = 60
    ∧ ((refreshDisplays env st).1.displays.headD defaultDisplay).isPrimary = true
    ∧ (refreshDisplays env st).1.lastError
        = "No display detection method available, using default"
    ∧ (refreshDisplays env st).1.lastErrorCode = DMErrorCode.NoDisplaysFound := by
  unfold refreshDisplays queryHyprlandDisplays
  simp [h1, h2, clearErrorDM, createDisplayFromInfo]

/-- Witness for C7 at the concrete both-empty environment. -/
theorem C7_zero_detection_fallback_witness :
    (refreshDisplays ⟨"", ""⟩ ⟨[], "", DMErrorCode.None⟩).2 = true
    ∧ (refreshDisplays ⟨"", ""⟩ ⟨[], "", DMErrorCode.None⟩).1.displays
        = [createDisplayFromInfo "DP-1" 1920 1080 60 true] :=
  ⟨(C7_zero_detection_fallback ⟨"", ""⟩ ⟨[], "", DMErrorCode.None⟩ rfl rfl).1,
   (C7_zero_detection_fallback ⟨"", ""⟩ ⟨[], "", DMErrorCode.None⟩ rfl rfl).2.1⟩

/-- Claim C8: for positive dimensions, `calculateAspectRatioScale` equals
`min(displayW/imageW, displayH/imageH)` under real-valued division and is
strictly positive — "fit" semantics, the minimum of the two axis ratios —
and in particular equals 1/2 at (1920, 1080, 3840, 2160). -/
theorem C8_aspectScale_fit :
    (∀ dw dh iw ih : Int, 0 < dw → 0 < dh → 0 < iw → 0 < ih →
        calculateAspectRatioScale dw dh iw ih
          = min ((dw : ℚ) / (iw : ℚ)) ((dh : ℚ) / (ih : ℚ))
        ∧ 0 < calculateAspectRatioScale dw dh iw ih)
    ∧ calculateAspectRatioScale 1920 1080 3840 2160 = 1 / 2 := by
  constructor
  · intro dw dh iw ih hdw hdh hiw hih
    refine ⟨rfl, ?_⟩
    simp only [calculateAspectRatioScale]
    exact lt_min (div_pos (by exact_mod_cast hdw) (by exact_mod_cast hiw))
      (div_pos (by exact_mod_cast hdh) (by exact_mod_cast hih))
  · norm_num [calculateAspectRatioScale]

/-- Witness for C8 at the spec's sample input. -/
theorem C8_aspectScale_fit_witness :
    calculateAspectRatioScale 1920 1080 3840 2160
      = min ((1920 : ℚ) / (3840 : ℚ)) ((1080 : ℚ) / (2160 : ℚ))
    ∧ 0 < calculateAspectRatioScale 1920 1080 3840 2160 :=
  C8_aspectScale_fit.1 1920 1080 3840 2160 (by norm_num) (by norm_num)
    (by norm_num) (by norm_num)

/-- Claim C9: `setWallpaperMode` on a display with a placement mutates
only that placement's mode field — path, dimensions, format and display id
are carried over unchanged (`{ info with mode := mode }`), and every other
display id's placement is untouched; on a display with no placement it
fails with the "no wallpaper set" condition and the map is unchanged. -/
theorem C9_mode_change_is_minimal (env : WMEnv) (st : WMState) (id : Int)
    (mode : WallpaperMode) :
    (lookupAssoc id st.wallpapers = none →
        (setWallpaperMode env st id mode).2 = false
        ∧ (setWallpaperMode env st id mode).1.wallpapers = st.wallpapers
        ∧ (setWallpaperMode env st id mode).1.lastError
            = "No wallpaper set for display " ++ toString id)
    ∧ (∀ info, lookupAssoc id st.wallpapers = some info →
        lookupAssoc id (setWallpaperMode env st id mode).1.wallpapers
          = some { info with mode := mode }
        ∧ ∀ j, j ≠ id →
            lookupAssoc j (setWallpaperMode env st id mode).1.wallpapers
              = lookupAssoc j st.wallpapers) := by
  constructor
  · intro h
    unfold setWallpaperMode
    simp only [clearError] at *
    simp [h]
  · intro info h
    unfold setWallpaperMode
    simp only [clearError] at *
    simp only [h]
    refine ⟨?_, fun j hj => ?_⟩
    · rw [applyToHyprland_wallpapers]
      show lookupAssoc id (setModeAssoc id mode st.wallpapers) = _
      rw [lookupAssoc_setModeAssoc_self, h]
      rfl
    · rw [applyToHyprland_wallpapers]
      show lookupAssoc j (setModeAssoc id mode st.wallpapers) = _
      exact lookupAssoc_setModeAssoc_ne j id mode st.wallpapers hj

/-- Witness for C9 at a concrete input: after a successful `setWallpaper`,
changing the mode to `Stretch` yields the same record with only the mode
replaced. -/
theorem C9_mode_change_is_minimal_witness :
    lookupAssoc 0 (setWallpaper (envWithFile "w.png" 0) initWMState
        "w.png" 0).1.wallpapers
      = some (buildWallpaperInfo (envWithFile "w.png" 0) "w.png" 0)
    ∧ lookupAssoc 0 (setWallpaperMode (envWithFile "w.png" 0)
          (setWallpaper (envWithFile "w.png" 0) initWMState "w.png" 0).1 0
          WallpaperMode.Stretch).1.wallpapers
      = some { buildWallpaperInfo (envWithFile "w.png" 0) "w.png" 0 with
               mode := WallpaperMode.Stretch } := by
  have h : lookupAssoc 0 (setWallpaper (envWithFile "w.png" 0) initWMState
      "w.png" 0).1.wallpapers
      = some (buildWallpaperInfo (envWithFile "w.png" 0) "w.png" 0) := by decide
  exact ⟨h, ((C9_mode_change_is_minimal (envWithFile "w.png" 0)
    (setWallpaper (envWithFile "w.png" 0) initWMState "w.png" 0).1 0
    WallpaperMode.Stretch).2 _ h).1⟩

/-- Claim C10: `getWallpaperMode` on a display id with no placement
returns the default mode `Scale`; being a `const` query it is embedded as
a pure function of the state, so it can neither fail nor create a
placement. -/
theorem C10_default_mode_Scale (st : WMState) (id : Int)
    (h : lookupAssoc id st.wallpapers = none) :
    getWallpaperMode st id = WallpaperMode.Scale := by
  unfold getWallpaperMode
  rw [h]

/-- Witness for C10 at a concrete input. -/
theorem C10_default_mode_Scale_witness :
    lookupAssoc 5 initWMState.wallpapers = none
    ∧ getWallpaperMode initWMState 5 = WallpaperMode.Scale :=
  ⟨rfl, C10_default_mode_Scale initWMState 5 rfl⟩

end Caithe
